import Mathlib

/-!
Verification development for the UE-side 5G NAS authentication core of
UERANSIM (src/src/ue/nas/mm/auth.cpp).

The C++ handlers are embedded shallowly: the mutable `NasMm` fields touched
by the authentication procedures become an explicit `UeState` record, the
external collaborators (Milenage engine, key-derivation functions, SQN
manager, serving-network-name construction, the EAP-TLS OpenSSL session)
become fields of an `Env` record of abstract functions, and each handler
becomes a pure function from `Env`, `UeState` and the decoded NAS message
to the new `UeState` together with a trace of observable events (NAS
emissions, local connection release, dispatch into the EAP success/failure
helpers).
-/

namespace Ueransim

/-- Byte sequence, the model of the `OctetString` value type. Bytes are
natural numbers; the handlers only read, slice, xor, concatenate and
compare them. -/
structure OctetString where
  bytes : List Nat
deriving DecidableEq

/-- Length in octets. -/
def OctetString.length (s : OctetString) : Nat := s.bytes.length

/-- The empty octet string, the model of a default-constructed value and of
the clearing assignment. -/
def OctetString.empty : OctetString := ⟨[]⟩

/-- Sub-range copy: `subCopy offset len`. -/
def OctetString.subCopy (s : OctetString) (off len : Nat) : OctetString :=
  ⟨(s.bytes.drop off).take len⟩

/-- Byte at an index (0 past the end, which the handlers never rely on). -/
def OctetString.get (s : OctetString) (i : Nat) : Nat := s.bytes.getD i 0

/-- Pairwise xor of two octet strings. -/
def OctetString.xor (a b : OctetString) : OctetString :=
  ⟨List.zipWith (fun x y => x ^^^ y) a.bytes b.bytes⟩

/-- Concatenation. -/
def OctetString.concat (a b : OctetString) : OctetString := ⟨a.bytes ++ b.bytes⟩

/-- `FromSpare n`: n zero bytes. -/
def OctetString.fromSpare (n : Nat) : OctetString := ⟨List.replicate n 0⟩

/-- Bit `i` of a byte value, the model of `octet::bit(i)`. -/
def octetBit (b i : Nat) : Nat := b / 2 ^ i % 2

/-- Type of security context carried by the ngKSI IE. -/
inductive ETypeOfSecurityContext
  | NATIVE_SECURITY_CONTEXT
  | MAPPED_SECURITY_CONTEXT
deriving DecidableEq

/-- NAS MM causes used by the authentication handlers. -/
inductive EMmCause
  | SEMANTICALLY_INCORRECT_MESSAGE
  | UNSPECIFIED_PROTOCOL_ERROR
  | NGKSI_ALREADY_IN_USE
  | MAC_FAILURE
  | SYNCH_FAILURE
  | NON_5G_AUTHENTICATION_UNACCEPTABLE
deriving DecidableEq

/-- EAP code field. -/
inductive ECode
  | REQUEST
  | RESPONSE
  | SUCCESS
  | FAILURE
deriving DecidableEq

/-- EAP-AKA-prime subtypes used by the handlers. -/
inductive ESubType
  | AKA_CHALLENGE
  | AKA_AUTHENTICATION_REJECT
  | AKA_SYNCHRONIZATION_FAILURE
  | AKA_CLIENT_ERROR
deriving DecidableEq

/-- CM state of the UE. -/
inductive ECmState
  | CM_IDLE
  | CM_CONNECTED
deriving DecidableEq

/-- UE update status values used here. -/
inductive E5UState
  | U1_UPDATED
  | U2_NOT_UPDATED
  | U3_ROAMING_NOT_ALLOWED
deriving DecidableEq

/-- MM substates used here. -/
inductive EMmSubState
  | MM_REGISTERED_NORMAL_SERVICE
  | MM_DEREGISTERED_PS
deriving DecidableEq

/-- Result of AUTN validation. -/
inductive EAutnValidationRes
  | OK
  | MAC_FAILURE
  | SYNCHRONISATION_FAILURE
  | AMF_SEPARATION_BIT_FAILURE
deriving DecidableEq

/-- Key material of a NAS security context. The subordinate NAS keys
derived later by the security-mode procedure are outside this core. -/
structure NasKeys where
  kAusf : OctetString
  kSeaf : OctetString
  kAmf : OctetString
  abba : OctetString
deriving DecidableEq

/-- A (partial) native NAS security context. -/
structure NasSecurityContext where
  tsc : ETypeOfSecurityContext
  ngKsi : Nat
  keys : NasKeys
deriving DecidableEq

/-- Decoded EAP-AKA-prime packet. The attribute getters of the C++ class
return an empty octet string when an attribute is absent, so the octet
attributes are plain fields; AT_KDF is a number (0 when absent) and the
response-only attributes are options. -/
structure EapAkaPrime where
  code : ECode
  id : Nat
  subType : ESubType
  attrRand : OctetString
  attrAutn : OctetString
  attrMac : OctetString
  attrKdfInput : OctetString
  attrKdf : Nat
  attrRes : Option OctetString
  attrAuts : Option OctetString
  attrClientErrorCode : Option Nat
deriving DecidableEq

/-- A fresh EAP-AKA-prime packet with the given header and no attributes,
the model of the three-argument constructor. -/
def mkEapAkaPrime (c : ECode) (i : Nat) (s : ESubType) : EapAkaPrime :=
  { code := c, id := i, subType := s,
    attrRand := OctetString.empty, attrAutn := OctetString.empty,
    attrMac := OctetString.empty, attrKdfInput := OctetString.empty,
    attrKdf := 0, attrRes := none, attrAuts := none, attrClientErrorCode := none }

/-- The EAP payload of a NAS message, discriminated by EAP type. The
EAP-TLS payload is not decoded here: the TLS branch of the handler drives
an external OpenSSL session and is abstracted by the environment. -/
inductive Eap
  | akaPrime (p : EapAkaPrime)
  | tls
  | otherType
deriving DecidableEq

/-- ngKSI IE. -/
structure IENasKeySetIdentifier where
  tsc : ETypeOfSecurityContext
  ksi : Nat
deriving DecidableEq

/-- The reserved KSI value 0b111. -/
def IENasKeySetIdentifier.NOT_AVAILABLE_OR_RESERVED : Nat := 7

/-- Decoded AuthenticationRequest. `abba` holds the raw data of the ABBA
IE. -/
structure AuthenticationRequest where
  ngKSI : IENasKeySetIdentifier
  abba : OctetString
  authParamRAND : Option OctetString
  authParamAUTN : Option OctetString
  eapMessage : Option Eap
deriving DecidableEq

/-- Decoded AuthenticationResult: optional ABBA IE and the code of the
mandatory EAP payload (the only part of it the handler reads). -/
structure AuthenticationResult where
  abba : Option OctetString
  eapCode : ECode
deriving DecidableEq

/-- Decoded AuthenticationReject: the code of the optional EAP payload
(the only part of it the handler reads). -/
structure AuthenticationReject where
  eapMessage : Option ECode
deriving DecidableEq

/-- Outbound NAS messages produced by the authentication core. -/
inductive NasOut
  | authResponse (responseParameter : Option OctetString) (eapMessage : Option EapAkaPrime)
  | authFailure (cause : EMmCause) (failureParameter : Option OctetString)
  | mmStatus (cause : EMmCause)
deriving DecidableEq

/-- Observable events of a handler run: a NAS emission, a local connection
release request, or dispatch into the EAP success/failure helpers. -/
inductive Event
  | sentNas (m : NasOut)
  | localRelease
  | eapSuccessCall
  | eapFailureCall
deriving DecidableEq

/-- The mutable UE state touched by the authentication core: the volatile
USIM fields, the two security-context slots, the failure counter, the
stored SQN of the SQN manager, the timers (true = running), CM state,
update status, USIM validity, the persisted identifiers cleared on reject
(true = present) and the MM substate. -/
structure UeState where
  rand : OctetString
  resStar : OctetString
  currentNsCtx : Option NasSecurityContext
  nonCurrentNsCtx : Option NasSecurityContext
  nwConsecutiveAuthFailure : Nat
  sqn : OctetString
  t3510 : Bool
  t3516 : Bool
  t3517 : Bool
  t3519 : Bool
  t3520 : Bool
  t3521 : Bool
  cmState : ECmState
  uState : E5UState
  usimValid : Bool
  storedGuti : Bool
  taiList : Bool
  lastVisitedTai : Bool
  mmSubState : EMmSubState
deriving DecidableEq

/-- Outputs of the Milenage engine (crypto::milenage::Milenage). -/
structure MilenageResult where
  mac_a : OctetString
  mac_s : OctetString
  ck : OctetString
  ik : OctetString
  ak : OctetString
  ak_r : OctetString
  res : OctetString
deriving DecidableEq

/-- USIM operator key discriminator. -/
inductive OpType
  | OP
  | OPC
deriving DecidableEq

/-- The fixed configuration and the external collaborators of the core,
abstracted as functions. `milenageCalculate` takes opc, key, rand, sqn and
amf; `checkSqn` takes the stored and the received SQN and returns the
acceptance verdict with the updated stored SQN (the SQN manager may
advance its store); the key-derivation fields model the functions of
ue/nas/keys.hpp, which is outside the embedded source; `tlsResult`
abstracts the whole EAP-TLS branch, which drives an external OpenSSL
session. -/
structure Env where
  currentPlmnValid : Bool
  snn : OctetString
  amf : OctetString
  opType : OpType
  opC : OctetString
  key : OctetString
  milenageCalculate : OctetString → OctetString → OctetString → OctetString → OctetString → MilenageResult
  milenageCalculateOpC : OctetString → OctetString → OctetString
  checkSqn : OctetString → OctetString → Bool × OctetString
  calculateResStar : OctetString → OctetString → OctetString → OctetString → OctetString
  calculateKAusfFor5gAka : OctetString → OctetString → OctetString → OctetString → OctetString
  calculateAuts : OctetString → OctetString → OctetString → OctetString
  calculateCkPrimeIkPrime : OctetString → OctetString → OctetString → OctetString → OctetString × OctetString
  calculateMk : OctetString → OctetString → OctetString
  calculateMacForEapAkaPrime : OctetString → EapAkaPrime → OctetString
  calculateKAusfForEapAkaPrime : OctetString → OctetString
  kdfSeaf : OctetString → OctetString
  kdfAmf : OctetString → OctetString → OctetString
  tlsResult : UeState → UeState × List Event

/-- Modelled from the spec: keys::DeriveKeysSeafAmf (declared in
ue/nas/keys.hpp, whose definition is not among the embedded sources)
populates KSEAF and then KAMF of the given context from its KAUSF, the
SUPI and the ABBA value; the other fields of the context are unchanged. -/
def deriveKeysSeafAmf (env : Env) (ctx : NasSecurityContext) : NasSecurityContext :=
  { ctx with keys :=
      { ctx.keys with
        kSeaf := env.kdfSeaf ctx.keys.kAusf
        kAmf := env.kdfAmf ctx.keys.kAusf ctx.keys.abba } }

/-- NasMm::calculateMilenage: pick the AMF (two spare bytes when
dummyAmf), derive OPC from OP when the configuration holds an OP value,
and run the Milenage engine. -/
def calculateMilenage (env : Env) (sqn rand : OctetString) (dummyAmf : Bool) : MilenageResult :=
  let amf := if dummyAmf then OctetString.fromSpare 2 else env.amf
  if env.opType = OpType.OPC then
    env.milenageCalculate env.opC env.key rand sqn amf
  else
    env.milenageCalculate (env.milenageCalculateOpC env.opC env.key) env.key rand sqn amf

/-- NasMm::validateAutn. Splits AUTN as SQNxorAK (6) then AMF (2) then
MAC (8), checks the separation bit, recovers the received SQN, asks the
SQN manager about it, recomputes Milenage with the received SQN and
compares the MAC. Returns the verdict together with the stored SQN as
possibly updated by the SQN manager. -/
def validateAutn (env : Env) (sqn rand autn : OctetString) : EAutnValidationRes × OctetString :=
  let receivedSQNxorAK := autn.subCopy 0 6
  let receivedAMF := autn.subCopy 6 2
  let receivedMAC := autn.subCopy 8 8
  if octetBit (receivedAMF.get 0) 7 ≠ 1 then
    (EAutnValidationRes.AMF_SEPARATION_BIT_FAILURE, sqn)
  else
    let milenage := calculateMilenage env sqn rand false
    let receivedSQN := OctetString.xor receivedSQNxorAK milenage.ak
    let checked := env.checkSqn sqn receivedSQN
    let milenage2 := calculateMilenage env receivedSQN rand false
    if receivedMAC ≠ milenage2.mac_a then
      (EAutnValidationRes.MAC_FAILURE, checked.2)
    else if checked.1 = false then
      (EAutnValidationRes.SYNCHRONISATION_FAILURE, checked.2)
    else
      (EAutnValidationRes.OK, checked.2)

/-- Trip body of NasMm::networkFailingTheAuthCheck: request local release
when CM-CONNECTED, stop T3520 and report true. -/
def authCheckTripBody (st : UeState) : Bool × UeState × List Event :=
  let evs := if st.cmState = ECmState.CM_CONNECTED then [Event.localRelease] else []
  (true, { st with t3520 := false }, evs)

/-- NasMm::networkFailingTheAuthCheck. The C++ condition is
`hasChance && m_nwConsecutiveAuthFailure++ < 3`: the post-increment fires
whenever hasChance is true (also on the tripping call), and is skipped by
short-circuiting when hasChance is false. -/
def networkFailingTheAuthCheck (st : UeState) (hasChance : Bool) : Bool × UeState × List Event :=
  if hasChance then
    let st2 := { st with nwConsecutiveAuthFailure := st.nwConsecutiveAuthFailure + 1 }
    if st.nwConsecutiveAuthFailure < 3 then (false, st2, [])
    else authCheckTripBody st2
  else authCheckTripBody st

/-- True when the given KSI equals the ngKsi of the current or of the
non-current security context. -/
def ngKsiInUse (st : UeState) (ksi : Nat) : Bool :=
  (match st.currentNsCtx with
   | some c => c.ngKsi == ksi
   | none => false) ||
  (match st.nonCurrentNsCtx with
   | some c => c.ngKsi == ksi
   | none => false)

/-- The sendFailure lambda of the 5G-AKA handler: clear RAND and RES*,
stop T3516 and emit an AuthenticationFailure with the cause and the
optional AUTS parameter. -/
def sendFailure5gAka (st : UeState) (cause : EMmCause) (auts : Option OctetString) :
    UeState × List Event :=
  ({ st with rand := OctetString.empty, resStar := OctetString.empty, t3516 := false },
   [Event.sentNas (NasOut.authFailure cause auts)])

/-- Dispatch of the 5G-AKA handler on the AUTN verdict (lines 523-578 of
auth.cpp). `st` already carries the SQN as updated by validateAutn and the
T3516 start when the stored RAND differed. -/
def fiveGAkaDispatch (env : Env) (st : UeState) (msg : AuthenticationRequest)
    (rand : OctetString) (autnCheck : EAutnValidationRes) : UeState × List Event :=
  match autnCheck with
  | EAutnValidationRes.OK =>
      let milenage := calculateMilenage env st.sqn rand false
      let ckIk := OctetString.concat milenage.ck milenage.ik
      let sqnXorAk := OctetString.xor st.sqn milenage.ak
      let resStar := env.calculateResStar ckIk env.snn rand milenage.res
      let nsCtx := deriveKeysSeafAmf env
        { tsc := msg.ngKSI.tsc
          ngKsi := msg.ngKSI.ksi
          keys :=
            { kAusf := env.calculateKAusfFor5gAka milenage.ck milenage.ik env.snn sqnXorAk
              kSeaf := OctetString.empty
              kAmf := OctetString.empty
              abba := msg.abba } }
      let st2 := { st with
        rand := rand, resStar := resStar, nonCurrentNsCtx := some nsCtx,
        nwConsecutiveAuthFailure := 0, t3520 := false }
      (st2, [Event.sentNas (NasOut.authResponse (some resStar) none)])
  | EAutnValidationRes.MAC_FAILURE =>
      let r := networkFailingTheAuthCheck st true
      if r.1 then (r.2.1, r.2.2)
      else
        let out := sendFailure5gAka { r.2.1 with t3520 := true } EMmCause.MAC_FAILURE none
        (out.1, r.2.2 ++ out.2)
  | EAutnValidationRes.SYNCHRONISATION_FAILURE =>
      let r := networkFailingTheAuthCheck st true
      if r.1 then (r.2.1, r.2.2)
      else
        let milenage := calculateMilenage env st.sqn rand true
        let auts := env.calculateAuts st.sqn milenage.ak_r milenage.mac_s
        let out := sendFailure5gAka { r.2.1 with t3520 := true } EMmCause.SYNCH_FAILURE (some auts)
        (out.1, r.2.2 ++ out.2)
  | EAutnValidationRes.AMF_SEPARATION_BIT_FAILURE =>
      let r := networkFailingTheAuthCheck st true
      if r.1 then (r.2.1, r.2.2)
      else
        let out := sendFailure5gAka { r.2.1 with t3520 := true }
          EMmCause.NON_5G_AUTHENTICATION_UNACCEPTABLE none
        (out.1, r.2.2 ++ out.2)

/-- NasMm::receiveAuthenticationRequest5gAka. -/
def receiveAuthenticationRequest5gAka (env : Env) (st : UeState)
    (msg : AuthenticationRequest) : UeState × List Event :=
  if env.currentPlmnValid = false then (st, [])
  else
    match msg.authParamRAND, msg.authParamAUTN with
    | none, _ => sendFailure5gAka st EMmCause.SEMANTICALLY_INCORRECT_MESSAGE none
    | some _, none => sendFailure5gAka st EMmCause.SEMANTICALLY_INCORRECT_MESSAGE none
    | some rand, some autn =>
      if rand.length ≠ 16 ∨ autn.length ≠ 16 then
        sendFailure5gAka st EMmCause.SEMANTICALLY_INCORRECT_MESSAGE none
      else if msg.ngKSI.tsc = ETypeOfSecurityContext.MAPPED_SECURITY_CONTEXT then
        sendFailure5gAka st EMmCause.UNSPECIFIED_PROTOCOL_ERROR none
      else if msg.ngKSI.ksi = IENasKeySetIdentifier.NOT_AVAILABLE_OR_RESERVED then
        sendFailure5gAka st EMmCause.UNSPECIFIED_PROTOCOL_ERROR none
      else if ngKsiInUse st msg.ngKSI.ksi then
        let r := networkFailingTheAuthCheck st true
        if r.1 then (r.2.1, r.2.2)
        else
          let out := sendFailure5gAka { r.2.1 with t3520 := true }
            EMmCause.NGKSI_ALREADY_IN_USE none
          (out.1, r.2.2 ++ out.2)
      else if st.rand ≠ rand then
        let v := validateAutn env st.sqn rand autn
        fiveGAkaDispatch env { st with sqn := v.2, t3516 := true } msg rand v.1
      else
        fiveGAkaDispatch env st msg rand EAutnValidationRes.OK

/-- The sendEapFailure lambda of the EAP handler: clear RAND and RES*,
stop T3516 and emit an AuthenticationResponse carrying the EAP packet. -/
def sendEapFailureResp (st : UeState) (eap : EapAkaPrime) : UeState × List Event :=
  ({ st with rand := OctetString.empty, resStar := OctetString.empty, t3516 := false },
   [Event.sentNas (NasOut.authResponse none (some eap))])

/-- The sendAuthFailure lambda of the EAP handler: clear RAND and RES*,
stop T3516 and emit an AuthenticationFailure with the cause. -/
def sendAuthFailureEap (st : UeState) (cause : EMmCause) : UeState × List Event :=
  ({ st with rand := OctetString.empty, resStar := OctetString.empty, t3516 := false },
   [Event.sentNas (NasOut.authFailure cause none)])

/-- Dispatch of the EAP-AKA-prime handler on the AUTN verdict (lines
208-304 of auth.cpp). `st` already carries the updated SQN and the T3516
start. -/
def eapAkaDispatch (env : Env) (st : UeState) (msg : AuthenticationRequest)
    (p : EapAkaPrime) (autnCheck : EAutnValidationRes) : UeState × List Event :=
  match autnCheck with
  | EAutnValidationRes.OK =>
      let milenage := calculateMilenage env st.sqn p.attrRand false
      let sqnXorAk := OctetString.xor st.sqn milenage.ak
      let ckIkPrime := env.calculateCkPrimeIkPrime milenage.ck milenage.ik env.snn sqnXorAk
      let mk := env.calculateMk ckIkPrime.1 ckIkPrime.2
      let kaut := mk.subCopy 16 32
      let expectedMac := env.calculateMacForEapAkaPrime kaut p
      if expectedMac ≠ p.attrMac then
        let r := networkFailingTheAuthCheck st true
        if r.1 then (r.2.1, r.2.2)
        else
          let eap := { mkEapAkaPrime ECode.RESPONSE p.id ESubType.AKA_CLIENT_ERROR with
            attrClientErrorCode := some 0 }
          let out := sendEapFailureResp { r.2.1 with t3520 := true } eap
          (out.1, r.2.2 ++ out.2)
      else
        let nsCtx := deriveKeysSeafAmf env
          { tsc := msg.ngKSI.tsc
            ngKsi := msg.ngKSI.ksi
            keys :=
              { kAusf := env.calculateKAusfForEapAkaPrime mk
                kSeaf := OctetString.empty
                kAmf := OctetString.empty
                abba := msg.abba } }
        let st2 := { st with
          rand := p.attrRand, resStar := OctetString.empty,
          nonCurrentNsCtx := some nsCtx,
          nwConsecutiveAuthFailure := 0, t3520 := false }
        let resp0 := { mkEapAkaPrime ECode.RESPONSE p.id ESubType.AKA_CHALLENGE with
          attrRes := some milenage.res, attrMac := OctetString.fromSpare 16, attrKdf := 1 }
        let resp := { resp0 with attrMac := env.calculateMacForEapAkaPrime kaut resp0 }
        (st2, [Event.sentNas (NasOut.authResponse none (some resp))])
  | EAutnValidationRes.MAC_FAILURE =>
      let r := networkFailingTheAuthCheck st true
      if r.1 then (r.2.1, r.2.2)
      else
        let out := sendEapFailureResp { r.2.1 with t3520 := true }
          (mkEapAkaPrime ECode.RESPONSE p.id ESubType.AKA_AUTHENTICATION_REJECT)
        (out.1, r.2.2 ++ out.2)
  | EAutnValidationRes.SYNCHRONISATION_FAILURE =>
      let r := networkFailingTheAuthCheck st true
      if r.1 then (r.2.1, r.2.2)
      else
        let st2 := { r.2.1 with t3520 := true }
        let milenage := calculateMilenage env st2.sqn p.attrRand true
        let auts := env.calculateAuts st2.sqn milenage.ak_r milenage.mac_s
        let eap := { mkEapAkaPrime ECode.RESPONSE p.id ESubType.AKA_SYNCHRONIZATION_FAILURE with
          attrAuts := some auts }
        let out := sendEapFailureResp st2 eap
        (out.1, r.2.2 ++ out.2)
  | EAutnValidationRes.AMF_SEPARATION_BIT_FAILURE =>
      let r := networkFailingTheAuthCheck st true
      if r.1 then (r.2.1, r.2.2)
      else
        let eap := { mkEapAkaPrime ECode.RESPONSE p.id ESubType.AKA_CLIENT_ERROR with
          attrClientErrorCode := some 0 }
        let out := sendEapFailureResp { r.2.1 with t3520 := true } eap
        (out.1, r.2.2 ++ out.2)

/-- NasMm::receiveAuthenticationRequestEap. The EAP-TLS branch drives an
OpenSSL session and is abstracted by `env.tlsResult`. -/
def receiveAuthenticationRequestEap (env : Env) (st : UeState)
    (msg : AuthenticationRequest) : UeState × List Event :=
  if env.currentPlmnValid = false then (st, [])
  else
    match msg.eapMessage with
    | none => (st, [Event.sentNas (NasOut.mmStatus EMmCause.SEMANTICALLY_INCORRECT_MESSAGE)])
    | some Eap.tls => env.tlsResult st
    | some Eap.otherType =>
        (st, [Event.sentNas (NasOut.mmStatus EMmCause.SEMANTICALLY_INCORRECT_MESSAGE)])
    | some (Eap.akaPrime p) =>
      if p.subType ≠ ESubType.AKA_CHALLENGE then
        (st, [Event.sentNas (NasOut.mmStatus EMmCause.SEMANTICALLY_INCORRECT_MESSAGE)])
      else if p.attrRand.length ≠ 16 ∨ p.attrAutn.length ≠ 16 ∨ p.attrMac.length ≠ 16 then
        (st, [Event.sentNas (NasOut.mmStatus EMmCause.SEMANTICALLY_INCORRECT_MESSAGE)])
      else if p.attrKdf ≠ 1 then
        let r := networkFailingTheAuthCheck st true
        if r.1 then (r.2.1, r.2.2)
        else
          let out := sendEapFailureResp { r.2.1 with t3520 := true }
            (mkEapAkaPrime ECode.RESPONSE p.id ESubType.AKA_AUTHENTICATION_REJECT)
          (out.1, r.2.2 ++ out.2)
      else if p.attrKdfInput ≠ env.snn then
        sendEapFailureResp st (mkEapAkaPrime ECode.RESPONSE p.id ESubType.AKA_AUTHENTICATION_REJECT)
      else if msg.ngKSI.tsc = ETypeOfSecurityContext.MAPPED_SECURITY_CONTEXT then
        sendAuthFailureEap st EMmCause.UNSPECIFIED_PROTOCOL_ERROR
      else if msg.ngKSI.ksi = IENasKeySetIdentifier.NOT_AVAILABLE_OR_RESERVED then
        sendAuthFailureEap st EMmCause.UNSPECIFIED_PROTOCOL_ERROR
      else if ngKsiInUse st msg.ngKSI.ksi then
        let r := networkFailingTheAuthCheck st true
        if r.1 then (r.2.1, r.2.2)
        else
          let out := sendAuthFailureEap { r.2.1 with t3520 := true } EMmCause.NGKSI_ALREADY_IN_USE
          (out.1, r.2.2 ++ out.2)
      else
        let v := validateAutn env st.sqn p.attrRand p.attrAutn
        eapAkaDispatch env { st with sqn := v.2, t3516 := true } msg p v.1

/-- NasMm::receiveAuthenticationRequest: ignore when the USIM is invalid,
start T3520 and route by the presence of an EAP payload. -/
def receiveAuthenticationRequest (env : Env) (st : UeState)
    (msg : AuthenticationRequest) : UeState × List Event :=
  if st.usimValid = false then (st, [])
  else
    let st2 := { st with t3520 := true }
    match msg.eapMessage with
    | some _ => receiveAuthenticationRequestEap env st2 msg
    | none => receiveAuthenticationRequest5gAka env st2 msg

/-- NasMm::receiveEapSuccessMessage: does nothing; the trace records the
dispatch. -/
def receiveEapSuccessMessage (st : UeState) : UeState × List Event :=
  (st, [Event.eapSuccessCall])

/-- NasMm::receiveEapFailureMessage: delete the partial native security
context; the trace records the dispatch. -/
def receiveEapFailureMessage (st : UeState) : UeState × List Event :=
  ({ st with nonCurrentNsCtx := none }, [Event.eapFailureCall])

/-- NasMm::receiveAuthenticationResult. The handler dereferences the
non-current security context whenever the message carries an ABBA IE; the
model returns none exactly on the null dereference. -/
def receiveAuthenticationResult (st : UeState) (msg : AuthenticationResult) :
    Option (UeState × List Event) :=
  let afterAbba : Option UeState :=
    match msg.abba with
    | some a =>
        match st.nonCurrentNsCtx with
        | none => none
        | some ctx =>
            let ctx2 := { ctx with keys := { ctx.keys with abba := a } }
            some { st with nonCurrentNsCtx := some ctx2 }
    | none => some st
  match afterAbba with
  | none => none
  | some st1 =>
      if msg.eapCode = ECode.SUCCESS then some (receiveEapSuccessMessage st1)
      else if msg.eapCode = ECode.FAILURE then some (receiveEapFailureMessage st1)
      else some (st1, [])

/-- NasMm::receiveAuthenticationReject. -/
def receiveAuthenticationReject (st : UeState) (msg : AuthenticationReject) :
    UeState × List Event :=
  let st1 := { st with rand := OctetString.empty, resStar := OctetString.empty, t3516 := false }
  let step2 :=
    match msg.eapMessage with
    | some c => if c = ECode.FAILURE then receiveEapFailureMessage st1 else (st1, [])
    | none => (st1, [])
  let st3 := { step2.1 with
    uState := E5UState.U3_ROAMING_NOT_ALLOWED,
    storedGuti := false, lastVisitedTai := false, taiList := false,
    currentNsCtx := none, nonCurrentNsCtx := none,
    usimValid := false,
    t3510 := false, t3516 := false, t3517 := false, t3519 := false, t3521 := false,
    mmSubState := EMmSubState.MM_DEREGISTERED_PS }
  (st3, step2.2)

/-!
Concrete sample inputs used by the witness theorems and counterexamples.
-/

/-- A fixed Milenage output used by the sample environment. -/
def sampleMil : MilenageResult :=
  { mac_a := ⟨[1, 2, 3, 4, 5, 6, 7, 8]⟩, mac_s := ⟨[8, 7, 6, 5, 4, 3, 2, 1]⟩,
    ck := ⟨List.replicate 16 1⟩, ik := ⟨List.replicate 16 2⟩,
    ak := ⟨[0, 0, 0, 0, 0, 0]⟩, ak_r := ⟨[1, 1, 1, 1, 1, 1]⟩,
    res := ⟨[9, 9, 9, 9, 9, 9, 9, 9]⟩ }

/-- A concrete environment whose crypto collaborators are constant
functions; the SQN manager accepts every received SQN unchanged. -/
def sampleEnv : Env :=
  { currentPlmnValid := true, snn := ⟨[53, 71]⟩, amf := ⟨[128, 0]⟩,
    opType := OpType.OPC, opC := ⟨List.replicate 16 0⟩, key := ⟨List.replicate 16 0⟩,
    milenageCalculate := fun _ _ _ _ _ => sampleMil,
    milenageCalculateOpC := fun o _ => o,
    checkSqn := fun s _ => (true, s),
    calculateResStar := fun _ _ _ _ => ⟨List.replicate 16 7⟩,
    calculateKAusfFor5gAka := fun _ _ _ _ => ⟨List.replicate 32 3⟩,
    calculateAuts := fun _ _ _ => ⟨List.replicate 14 4⟩,
    calculateCkPrimeIkPrime := fun _ _ _ _ => (⟨List.replicate 16 5⟩, ⟨List.replicate 16 6⟩),
    calculateMk := fun _ _ => ⟨List.replicate 208 8⟩,
    calculateMacForEapAkaPrime := fun _ _ => ⟨List.replicate 16 9⟩,
    calculateKAusfForEapAkaPrime := fun _ => ⟨List.replicate 32 10⟩,
    kdfSeaf := fun _ => ⟨List.replicate 32 11⟩,
    kdfAmf := fun _ _ => ⟨List.replicate 32 12⟩,
    tlsResult := fun s => (s, []) }

/-- A UE state before any authentication: empty volatile fields, no
security contexts, counter 0, CM-CONNECTED, valid USIM. -/
def initState : UeState :=
  { rand := OctetString.empty, resStar := OctetString.empty,
    currentNsCtx := none, nonCurrentNsCtx := none,
    nwConsecutiveAuthFailure := 0, sqn := ⟨[0, 0, 0, 0, 0, 0]⟩,
    t3510 := false, t3516 := false, t3517 := false, t3519 := false,
    t3520 := true, t3521 := false,
    cmState := ECmState.CM_CONNECTED, uState := E5UState.U1_UPDATED, usimValid := true,
    storedGuti := true, taiList := true, lastVisitedTai := true,
    mmSubState := EMmSubState.MM_REGISTERED_NORMAL_SERVICE }

/-- A 16-byte RAND. -/
def sampleRand : OctetString := ⟨List.replicate 16 5⟩

/-- A 16-byte AUTN whose separation bit is set and whose MAC part equals
the sample Milenage MAC_A, so that validation succeeds under `sampleEnv`. -/
def sampleAutnOk : OctetString := ⟨[0, 0, 0, 0, 0, 0, 128, 0, 1, 2, 3, 4, 5, 6, 7, 8]⟩

/-- A 16-byte AUTN whose separation bit is set but whose MAC part differs
from the sample Milenage MAC_A. -/
def sampleAutnMacFail : OctetString := ⟨[0, 0, 0, 0, 0, 0, 128, 0, 9, 9, 9, 9, 9, 9, 9, 9]⟩

/-- An AuthenticationRequest for the 5G-AKA path with a native ngKSI. -/
def mk5gAkaMsg (ksi : Nat) (abba rand autn : OctetString) : AuthenticationRequest :=
  { ngKSI := { tsc := ETypeOfSecurityContext.NATIVE_SECURITY_CONTEXT, ksi := ksi },
    abba := abba, authParamRAND := some rand, authParamAUTN := some autn,
    eapMessage := none }

/-- An AuthenticationRequest carrying an EAP-AKA-prime payload with a
native ngKSI. -/
def mkEapMsg (ksi : Nat) (abba : OctetString) (p : EapAkaPrime) : AuthenticationRequest :=
  { ngKSI := { tsc := ETypeOfSecurityContext.NATIVE_SECURITY_CONTEXT, ksi := ksi },
    abba := abba, authParamRAND := none, authParamAUTN := none,
    eapMessage := some (Eap.akaPrime p) }

/-!
Helper abbreviations and lemmas shared by the claim theorems.
-/

/-- The SQN recovered from AUTN inside validateAutn. -/
def receivedSqnOf (env : Env) (sqn rand autn : OctetString) : OctetString :=
  OctetString.xor (autn.subCopy 0 6) (calculateMilenage env sqn rand false).ak

/-- The stored SQN after the conditional AUTN validation of the 5G-AKA
handler: unchanged on the retransmission shortcut, otherwise as updated by
validateAutn. -/
def postValidateSqn (env : Env) (st : UeState) (rand autn : OctetString) : OctetString :=
  if st.rand = rand then st.sqn else (validateAutn env st.sqn rand autn).2

/-- The Milenage record the accepting 5G-AKA branch computes. -/
def okMilenage (env : Env) (st : UeState) (rand autn : OctetString) : MilenageResult :=
  calculateMilenage env (postValidateSqn env st rand autn) rand false

theorem networkFailingTheAuthCheck_no_nas (st : UeState) (b : Bool) (m : NasOut) :
    Event.sentNas m ∉ (networkFailingTheAuthCheck st b).2.2 := by
  simp only [networkFailingTheAuthCheck, authCheckTripBody]
  split
  · split
    · simp
    · split <;> simp
  · split <;> simp

theorem networkFailingTheAuthCheck_false_events (st : UeState) (b : Bool)
    (h : (networkFailingTheAuthCheck st b).1 = false) :
    (networkFailingTheAuthCheck st b).2.2 = [] := by
  cases b with
  | false => simp [networkFailingTheAuthCheck, authCheckTripBody] at h
  | true =>
    by_cases h3 : st.nwConsecutiveAuthFailure < 3
    · simp [networkFailingTheAuthCheck, h3]
    · simp [networkFailingTheAuthCheck, h3, authCheckTripBody] at h

/-!
Claim theorems.
-/

/-- C5: networkFailingTheAuthCheck(true) with the counter below 3
increments it by exactly one and returns false; in every other case the
function stops T3520, requests local connection release exactly when the
CM state is CM-CONNECTED, and returns true. -/
theorem networkFailingTheAuthCheck_spec (st : UeState) (hasChance : Bool) :
    (st.nwConsecutiveAuthFailure < 3 →
      networkFailingTheAuthCheck st true =
        (false, { st with nwConsecutiveAuthFailure := st.nwConsecutiveAuthFailure + 1 }, [])) ∧
    (hasChance = false ∨ 3 ≤ st.nwConsecutiveAuthFailure →
      (networkFailingTheAuthCheck st hasChance).1 = true ∧
      (networkFailingTheAuthCheck st hasChance).2.1.t3520 = false ∧
      (networkFailingTheAuthCheck st hasChance).2.2 =
        (if st.cmState = ECmState.CM_CONNECTED then [Event.localRelease] else [])) := by
  constructor
  · intro h
    simp [networkFailingTheAuthCheck, h]
  · intro h
    rcases h with h | h
    · subst h
      simp [networkFailingTheAuthCheck, authCheckTripBody]
    · have h3 : ¬ st.nwConsecutiveAuthFailure < 3 := by omega
      cases hasChance <;> simp [networkFailingTheAuthCheck, authCheckTripBody, h3]

theorem networkFailingTheAuthCheck_spec_witness :
    networkFailingTheAuthCheck initState true =
      (false, { initState with nwConsecutiveAuthFailure := 1 }, []) ∧
    (networkFailingTheAuthCheck { initState with nwConsecutiveAuthFailure := 3 } true).1 = true :=
  ⟨(networkFailingTheAuthCheck_spec initState true).1 (by decide),
   ((networkFailingTheAuthCheck_spec { initState with nwConsecutiveAuthFailure := 3 } true).2
      (Or.inr (by decide))).1⟩

/-- One failure event on the counter: the state after
networkFailingTheAuthCheck(true). -/
def authFailStep (st : UeState) : UeState := (networkFailingTheAuthCheck st true).2.1

/-- C4 counterexample: four consecutive failure events drive the counter
to 4, outside the range 0..3, because the post-increment also fires on the
tripping call. -/
theorem nwConsecutiveAuthFailure_exceeds_range :
    (authFailStep (authFailStep (authFailStep (authFailStep initState)))).nwConsecutiveAuthFailure
      = 4 := by
  decide

/-- C4 (amended): every non-tripping check increments the counter by
exactly one and leaves it at most 3, and the accepting 5G-AKA branch
resets it to 0; only a tripping call can push the counter past 3. -/
theorem nwConsecutiveAuthFailure_range_until_trip :
    (∀ (st : UeState) (hasChance : Bool),
      (networkFailingTheAuthCheck st hasChance).1 = false →
        (networkFailingTheAuthCheck st hasChance).2.1.nwConsecutiveAuthFailure =
          st.nwConsecutiveAuthFailure + 1 ∧
        (networkFailingTheAuthCheck st hasChance).2.1.nwConsecutiveAuthFailure ≤ 3) ∧
    (∀ (env : Env) (st : UeState) (msg : AuthenticationRequest) (rand : OctetString),
      (fiveGAkaDispatch env st msg rand EAutnValidationRes.OK).1.nwConsecutiveAuthFailure = 0) := by
  constructor
  · intro st hasChance h
    cases hasChance with
    | false => simp [networkFailingTheAuthCheck, authCheckTripBody] at h
    | true =>
      by_cases h3 : st.nwConsecutiveAuthFailure < 3
      · constructor
        · simp [networkFailingTheAuthCheck, h3]
        · simp [networkFailingTheAuthCheck, h3]
          omega
      · simp [networkFailingTheAuthCheck, h3, authCheckTripBody] at h
  · intro env st msg rand
    rfl

theorem nwConsecutiveAuthFailure_range_until_trip_witness :
    (networkFailingTheAuthCheck initState true).2.1.nwConsecutiveAuthFailure =
      initState.nwConsecutiveAuthFailure + 1 ∧
    (networkFailingTheAuthCheck initState true).2.1.nwConsecutiveAuthFailure ≤ 3 :=
  nwConsecutiveAuthFailure_range_until_trip.1 initState true (by decide)

/-- C2: for a 16-byte RAND and AUTN whose separation bit is set, a MAC
mismatch against the Milenage recomputation with the received SQN yields
MAC_FAILURE regardless of the SQN verdict; a MAC match with a rejected SQN
yields SYNCHRONISATION_FAILURE; a MAC match with an accepted SQN yields
OK. -/
theorem validateAutn_spec (env : Env) (sqn rand autn : OctetString)
    (_hlr : rand.length = 16) (_hla : autn.length = 16)
    (hsep : octetBit ((autn.subCopy 6 2).get 0) 7 = 1) :
    (autn.subCopy 8 8 ≠ (calculateMilenage env (receivedSqnOf env sqn rand autn) rand false).mac_a →
      (validateAutn env sqn rand autn).1 = EAutnValidationRes.MAC_FAILURE) ∧
    (autn.subCopy 8 8 = (calculateMilenage env (receivedSqnOf env sqn rand autn) rand false).mac_a →
      (env.checkSqn sqn (receivedSqnOf env sqn rand autn)).1 = false →
      (validateAutn env sqn rand autn).1 = EAutnValidationRes.SYNCHRONISATION_FAILURE) ∧
    (autn.subCopy 8 8 = (calculateMilenage env (receivedSqnOf env sqn rand autn) rand false).mac_a →
      (env.checkSqn sqn (receivedSqnOf env sqn rand autn)).1 = true →
      (validateAutn env sqn rand autn).1 = EAutnValidationRes.OK) := by
  refine ⟨?_, ?_, ?_⟩ <;> intros <;> simp_all [validateAutn, receivedSqnOf, hsep]

theorem validateAutn_spec_witness :
    (validateAutn sampleEnv ⟨[0, 0, 0, 0, 0, 0]⟩ sampleRand sampleAutnMacFail).1 =
      EAutnValidationRes.MAC_FAILURE ∧
    (validateAutn sampleEnv ⟨[0, 0, 0, 0, 0, 0]⟩ sampleRand sampleAutnOk).1 =
      EAutnValidationRes.OK :=
  ⟨(validateAutn_spec sampleEnv ⟨[0, 0, 0, 0, 0, 0]⟩ sampleRand sampleAutnMacFail
      (by decide) (by decide) (by decide)).1 (by decide),
   (validateAutn_spec sampleEnv ⟨[0, 0, 0, 0, 0, 0]⟩ sampleRand sampleAutnOk
      (by decide) (by decide) (by decide)).2.2 (by decide) (by decide)⟩

/-- UE state with the failure counter already at the trip threshold and a
nonempty stored RES*. -/
def stC3 : UeState := { initState with nwConsecutiveAuthFailure := 3, resStar := ⟨[9]⟩ }

/-- A 5G-AKA request whose AUTN fails MAC validation under sampleEnv. -/
def msgMacFail : AuthenticationRequest := mk5gAkaMsg 1 ⟨[0, 0]⟩ sampleRand sampleAutnMacFail

/-- C3 counterexample: on a MAC-failure path whose networkFailingTheAuthCheck(true)
returns true, the handler returns with RES* still set and T3516 still
running, so not every failure path clears RAND and RES* and stops T3516. -/
theorem fiveGAka_trip_path_no_cleanup :
    (receiveAuthenticationRequest5gAka sampleEnv stC3 msgMacFail).1.resStar ≠
      OctetString.empty ∧
    (receiveAuthenticationRequest5gAka sampleEnv stC3 msgMacFail).1.t3516 = true := by
  decide

theorem fiveGAkaDispatch_failure_cleanup (env : Env) (st : UeState)
    (msg : AuthenticationRequest) (rand : OctetString) (c : EAutnValidationRes)
    (cause : EMmCause) (par : Option OctetString)
    (h : Event.sentNas (NasOut.authFailure cause par) ∈ (fiveGAkaDispatch env st msg rand c).2) :
    (fiveGAkaDispatch env st msg rand c).1.rand = OctetString.empty ∧
    (fiveGAkaDispatch env st msg rand c).1.resStar = OctetString.empty ∧
    (fiveGAkaDispatch env st msg rand c).1.t3516 = false := by
  cases c with
  | OK => simp [fiveGAkaDispatch] at h
  | MAC_FAILURE =>
    by_cases hr : (networkFailingTheAuthCheck st true).1 = true
    · rw [fiveGAkaDispatch] at h
      simp only [hr, if_true] at h
      exact absurd h (networkFailingTheAuthCheck_no_nas st true _)
    · simp only [Bool.not_eq_true] at hr
      simp [fiveGAkaDispatch, hr, sendFailure5gAka]
  | SYNCHRONISATION_FAILURE =>
    by_cases hr : (networkFailingTheAuthCheck st true).1 = true
    · rw [fiveGAkaDispatch] at h
      simp only [hr, if_true] at h
      exact absurd h (networkFailingTheAuthCheck_no_nas st true _)
    · simp only [Bool.not_eq_true] at hr
      simp [fiveGAkaDispatch, hr, sendFailure5gAka]
  | AMF_SEPARATION_BIT_FAILURE =>
    by_cases hr : (networkFailingTheAuthCheck st true).1 = true
    · rw [fiveGAkaDispatch] at h
      simp only [hr, if_true] at h
      exact absurd h (networkFailingTheAuthCheck_no_nas st true _)
    · simp only [Bool.not_eq_true] at hr
      simp [fiveGAkaDispatch, hr, sendFailure5gAka]

theorem fiveGAka_reduces_to_dispatch (env : Env) (st : UeState)
    (msg : AuthenticationRequest) (rand autn : OctetString)
    (hp : env.currentPlmnValid = true)
    (hR : msg.authParamRAND = some rand) (hA : msg.authParamAUTN = some autn)
    (hlr : rand.length = 16) (hla : autn.length = 16)
    (htsc : msg.ngKSI.tsc = ETypeOfSecurityContext.NATIVE_SECURITY_CONTEXT)
    (hksi : msg.ngKSI.ksi ≠ IENasKeySetIdentifier.NOT_AVAILABLE_OR_RESERVED)
    (huse : ngKsiInUse st msg.ngKSI.ksi = false) :
    receiveAuthenticationRequest5gAka env st msg =
      (if st.rand = rand then fiveGAkaDispatch env st msg rand EAutnValidationRes.OK
       else fiveGAkaDispatch env
         { st with sqn := (validateAutn env st.sqn rand autn).2, t3516 := true }
         msg rand (validateAutn env st.sqn rand autn).1) := by
  rw [receiveAuthenticationRequest5gAka]
  simp only [hp, hR, hA, hlr, hla, htsc, hksi, huse]
  by_cases hrand : st.rand = rand <;> simp [hrand]

/-- C3 (amended): every path of the 5G-AKA handler that emits an
AuthenticationFailure leaves RAND and RES* cleared and T3516 stopped;
paths on which networkFailingTheAuthCheck(true) returns true, and the
missing-PLMN early return, return without this cleanup. -/
theorem fiveGAka_failure_emission_cleanup (env : Env) (st : UeState)
    (msg : AuthenticationRequest) (cause : EMmCause) (par : Option OctetString)
    (h : Event.sentNas (NasOut.authFailure cause par) ∈
      (receiveAuthenticationRequest5gAka env st msg).2) :
    (receiveAuthenticationRequest5gAka env st msg).1.rand = OctetString.empty ∧
    (receiveAuthenticationRequest5gAka env st msg).1.resStar = OctetString.empty ∧
    (receiveAuthenticationRequest5gAka env st msg).1.t3516 = false := by
  by_cases hp : env.currentPlmnValid = false
  · simp [receiveAuthenticationRequest5gAka, hp] at h
  · rcases hR : msg.authParamRAND with _ | rand
    · simp [receiveAuthenticationRequest5gAka, hp, hR, sendFailure5gAka]
    · rcases hA : msg.authParamAUTN with _ | autn
      · simp [receiveAuthenticationRequest5gAka, hp, hR, hA, sendFailure5gAka]
      · by_cases hlen : rand.length ≠ 16 ∨ autn.length ≠ 16
        · simp [receiveAuthenticationRequest5gAka, hp, hR, hA, hlen, sendFailure5gAka]
        · by_cases htsc : msg.ngKSI.tsc = ETypeOfSecurityContext.MAPPED_SECURITY_CONTEXT
          · simp [receiveAuthenticationRequest5gAka, hp, hR, hA, hlen, htsc, sendFailure5gAka]
          · by_cases hksi : msg.ngKSI.ksi = IENasKeySetIdentifier.NOT_AVAILABLE_OR_RESERVED
            · simp [receiveAuthenticationRequest5gAka, hp, hR, hA, hlen, htsc, hksi,
                sendFailure5gAka]
            · push_neg at hlen
              by_cases huse : ngKsiInUse st msg.ngKSI.ksi = true
              · by_cases hr : (networkFailingTheAuthCheck st true).1 = true
                · rw [receiveAuthenticationRequest5gAka] at h
                  simp [hp, hR, hA, hlen.1, hlen.2, htsc, hksi, huse, hr] at h
                  exact absurd h (networkFailingTheAuthCheck_no_nas st true _)
                · simp only [Bool.not_eq_true] at hr
                  simp [receiveAuthenticationRequest5gAka, hp, hR, hA, hlen.1, hlen.2,
                    htsc, hksi, huse, hr, sendFailure5gAka]
              · simp only [Bool.not_eq_true] at huse
                rw [fiveGAka_reduces_to_dispatch env st msg rand autn
                  (by revert hp; cases env.currentPlmnValid <;> simp) hR hA hlen.1 hlen.2
                  (by revert htsc; cases msg.ngKSI.tsc <;> simp) hksi huse] at h ⊢
                by_cases hrand : st.rand = rand
                · simp only [hrand, if_true, reduceIte] at h ⊢
                  exact fiveGAkaDispatch_failure_cleanup env st msg rand
                    EAutnValidationRes.OK cause par h
                · simp only [hrand, if_false, reduceIte] at h ⊢
                  exact fiveGAkaDispatch_failure_cleanup env _ msg rand _ cause par h

theorem fiveGAka_failure_emission_cleanup_witness :
    (receiveAuthenticationRequest5gAka sampleEnv initState msgMacFail).1.rand =
      OctetString.empty ∧
    (receiveAuthenticationRequest5gAka sampleEnv initState msgMacFail).1.resStar =
      OctetString.empty ∧
    (receiveAuthenticationRequest5gAka sampleEnv initState msgMacFail).1.t3516 = false :=
  fiveGAka_failure_emission_cleanup sampleEnv initState msgMacFail
    EMmCause.MAC_FAILURE none (by decide)

/-- C1: an AuthenticationRequest that passes the syntactic and ngKSI
checks and whose AUTN validation is treated as OK stores the received RAND
and the recomputed RES*, stages a fresh non-current security context whose
ngKsi, kAusf and abba come from the message and the 5G-AKA KAUSF
derivation, resets the failure counter, stops T3520 and emits exactly one
AuthenticationResponse carrying the stored RES*. -/
theorem fiveGAka_ok_path (env : Env) (st : UeState) (ksi : Nat)
    (abba rand autn : OctetString)
    (hp : env.currentPlmnValid = true)
    (hlr : rand.length = 16) (hla : autn.length = 16)
    (hk : ksi ≠ IENasKeySetIdentifier.NOT_AVAILABLE_OR_RESERVED)
    (hc : ngKsiInUse st ksi = false)
    (hok : st.rand = rand ∨ (validateAutn env st.sqn rand autn).1 = EAutnValidationRes.OK) :
    (receiveAuthenticationRequest5gAka env st (mk5gAkaMsg ksi abba rand autn)).1.rand = rand ∧
    (receiveAuthenticationRequest5gAka env st (mk5gAkaMsg ksi abba rand autn)).1.resStar =
      env.calculateResStar
        (OctetString.concat (okMilenage env st rand autn).ck (okMilenage env st rand autn).ik)
        env.snn rand (okMilenage env st rand autn).res ∧
    (∃ ctx : NasSecurityContext,
      (receiveAuthenticationRequest5gAka env st (mk5gAkaMsg ksi abba rand autn)).1.nonCurrentNsCtx
        = some ctx ∧
      ctx.ngKsi = ksi ∧
      ctx.keys.kAusf = env.calculateKAusfFor5gAka (okMilenage env st rand autn).ck
        (okMilenage env st rand autn).ik env.snn
        (OctetString.xor (postValidateSqn env st rand autn) (okMilenage env st rand autn).ak) ∧
      ctx.keys.abba = abba) ∧
    (receiveAuthenticationRequest5gAka env st
      (mk5gAkaMsg ksi abba rand autn)).1.nwConsecutiveAuthFailure = 0 ∧
    (receiveAuthenticationRequest5gAka env st (mk5gAkaMsg ksi abba rand autn)).1.t3520 = false ∧
    (receiveAuthenticationRequest5gAka env st (mk5gAkaMsg ksi abba rand autn)).2 =
      [Event.sentNas (NasOut.authResponse
        (some (receiveAuthenticationRequest5gAka env st
          (mk5gAkaMsg ksi abba rand autn)).1.resStar) none)] := by
  rw [fiveGAka_reduces_to_dispatch env st (mk5gAkaMsg ksi abba rand autn) rand autn
    hp rfl rfl hlr hla rfl hk hc]
  by_cases hrand : st.rand = rand
  · simp only [hrand, if_pos, reduceIte]
    simp [fiveGAkaDispatch, deriveKeysSeafAmf, okMilenage, postValidateSqn, hrand, mk5gAkaMsg]
  · rcases hok with hok | hok
    · exact absurd hok hrand
    · simp only [hrand, if_neg, reduceIte]
      rw [hok]
      simp [fiveGAkaDispatch, deriveKeysSeafAmf, okMilenage, postValidateSqn, hrand, mk5gAkaMsg]

theorem fiveGAka_ok_path_witness :
    (receiveAuthenticationRequest5gAka sampleEnv initState
      (mk5gAkaMsg 1 ⟨[0, 0]⟩ sampleRand sampleAutnOk)).1.nwConsecutiveAuthFailure = 0 ∧
    (receiveAuthenticationRequest5gAka sampleEnv initState
      (mk5gAkaMsg 1 ⟨[0, 0]⟩ sampleRand sampleAutnOk)).1.t3520 = false ∧
    (receiveAuthenticationRequest5gAka sampleEnv initState
      (mk5gAkaMsg 1 ⟨[0, 0]⟩ sampleRand sampleAutnOk)).2 =
      [Event.sentNas (NasOut.authResponse
        (some (receiveAuthenticationRequest5gAka sampleEnv initState
          (mk5gAkaMsg 1 ⟨[0, 0]⟩ sampleRand sampleAutnOk)).1.resStar) none)] :=
  (fiveGAka_ok_path sampleEnv initState 1 ⟨[0, 0]⟩ sampleRand sampleAutnOk
    rfl (by decide) (by decide) (by decide) (by decide) (Or.inr (by decide))).2.2.2

/-- C6: when the received RAND equals the stored RAND the 5G-AKA handler
skips AUTN validation and proceeds on the OK branch with T3516 untouched,
still recomputing RES* from the received RAND; when it differs, the
handler runs validateAutn on the received RAND and AUTN and starts T3516
before dispatching on the verdict. -/
theorem fiveGAka_rand_retransmission (env : Env) (st : UeState) (ksi : Nat)
    (abba rand autn : OctetString)
    (hp : env.currentPlmnValid = true)
    (hlr : rand.length = 16) (hla : autn.length = 16)
    (hk : ksi ≠ IENasKeySetIdentifier.NOT_AVAILABLE_OR_RESERVED)
    (hc : ngKsiInUse st ksi = false) :
    (st.rand = rand →
      receiveAuthenticationRequest5gAka env st (mk5gAkaMsg ksi abba rand autn) =
        fiveGAkaDispatch env st (mk5gAkaMsg ksi abba rand autn) rand EAutnValidationRes.OK ∧
      (receiveAuthenticationRequest5gAka env st (mk5gAkaMsg ksi abba rand autn)).1.t3516 =
        st.t3516 ∧
      (receiveAuthenticationRequest5gAka env st (mk5gAkaMsg ksi abba rand autn)).1.resStar =
        env.calculateResStar
          (OctetString.concat (calculateMilenage env st.sqn rand false).ck
            (calculateMilenage env st.sqn rand false).ik)
          env.snn rand (calculateMilenage env st.sqn rand false).res) ∧
    (st.rand ≠ rand →
      receiveAuthenticationRequest5gAka env st (mk5gAkaMsg ksi abba rand autn) =
        fiveGAkaDispatch env
          { st with sqn := (validateAutn env st.sqn rand autn).2, t3516 := true }
          (mk5gAkaMsg ksi abba rand autn) rand (validateAutn env st.sqn rand autn).1) := by
  have hred := fiveGAka_reduces_to_dispatch env st (mk5gAkaMsg ksi abba rand autn) rand autn
    hp rfl rfl hlr hla rfl hk hc
  constructor
  · intro hrand
    rw [hred]
    simp [hrand, fiveGAkaDispatch]
  · intro hrand
    rw [hred]
    simp only [hrand, if_neg, reduceIte]

theorem fiveGAka_rand_retransmission_witness :
    receiveAuthenticationRequest5gAka sampleEnv
      { initState with rand := sampleRand }
      (mk5gAkaMsg 1 ⟨[0, 0]⟩ sampleRand sampleAutnOk) =
      fiveGAkaDispatch sampleEnv { initState with rand := sampleRand }
        (mk5gAkaMsg 1 ⟨[0, 0]⟩ sampleRand sampleAutnOk) sampleRand EAutnValidationRes.OK ∧
    (receiveAuthenticationRequest5gAka sampleEnv { initState with rand := sampleRand }
      (mk5gAkaMsg 1 ⟨[0, 0]⟩ sampleRand sampleAutnOk)).1.t3516 =
      ({ initState with rand := sampleRand } : UeState).t3516 :=
  ⟨((fiveGAka_rand_retransmission sampleEnv { initState with rand := sampleRand } 1 ⟨[0, 0]⟩
      sampleRand sampleAutnOk rfl (by decide) (by decide) (by decide) (by decide)).1
      (by decide)).1,
   ((fiveGAka_rand_retransmission sampleEnv { initState with rand := sampleRand } 1 ⟨[0, 0]⟩
      sampleRand sampleAutnOk rfl (by decide) (by decide) (by decide) (by decide)).1
      (by decide)).2.1⟩

/-- C7: the 5G-AKA handler answers a missing or mis-sized RAND/AUTN with
AuthenticationFailure cause SEMANTICALLY_INCORRECT_MESSAGE, a mapped or
not-available ngKSI with cause UNSPECIFIED_PROTOCOL_ERROR, and an ngKSI
already used by either security context with networkFailingTheAuthCheck(true)
followed, unless it trips, by starting T3520 and sending cause
NGKSI_ALREADY_IN_USE. -/
theorem fiveGAka_precondition_failures (env : Env) (st : UeState)
    (msg : AuthenticationRequest) (hp : env.currentPlmnValid = true) :
    (msg.authParamRAND = none ∨ msg.authParamAUTN = none →
      receiveAuthenticationRequest5gAka env st msg =
        sendFailure5gAka st EMmCause.SEMANTICALLY_INCORRECT_MESSAGE none) ∧
    (∀ rand autn : OctetString,
      msg.authParamRAND = some rand → msg.authParamAUTN = some autn →
      (rand.length ≠ 16 ∨ autn.length ≠ 16) →
      receiveAuthenticationRequest5gAka env st msg =
        sendFailure5gAka st EMmCause.SEMANTICALLY_INCORRECT_MESSAGE none) ∧
    (∀ rand autn : OctetString,
      msg.authParamRAND = some rand → msg.authParamAUTN = some autn →
      rand.length = 16 → autn.length = 16 →
      (msg.ngKSI.tsc = ETypeOfSecurityContext.MAPPED_SECURITY_CONTEXT ∨
        msg.ngKSI.ksi = IENasKeySetIdentifier.NOT_AVAILABLE_OR_RESERVED) →
      receiveAuthenticationRequest5gAka env st msg =
        sendFailure5gAka st EMmCause.UNSPECIFIED_PROTOCOL_ERROR none) ∧
    (∀ rand autn : OctetString,
      msg.authParamRAND = some rand → msg.authParamAUTN = some autn →
      rand.length = 16 → autn.length = 16 →
      msg.ngKSI.tsc = ETypeOfSecurityContext.NATIVE_SECURITY_CONTEXT →
      msg.ngKSI.ksi ≠ IENasKeySetIdentifier.NOT_AVAILABLE_OR_RESERVED →
      ngKsiInUse st msg.ngKSI.ksi = true →
      ((networkFailingTheAuthCheck st true).1 = true →
        receiveAuthenticationRequest5gAka env st msg =
          ((networkFailingTheAuthCheck st true).2.1, (networkFailingTheAuthCheck st true).2.2)) ∧
      ((networkFailingTheAuthCheck st true).1 = false →
        receiveAuthenticationRequest5gAka env st msg =
          sendFailure5gAka { (networkFailingTheAuthCheck st true).2.1 with t3520 := true }
            EMmCause.NGKSI_ALREADY_IN_USE none)) := by
  refine ⟨?_, ?_, ?_, ?_⟩
  · intro h
    rcases h with h | h
    · simp [receiveAuthenticationRequest5gAka, hp, h]
    · rcases hR : msg.authParamRAND with _ | rand
      · simp [receiveAuthenticationRequest5gAka, hp, hR]
      · simp [receiveAuthenticationRequest5gAka, hp, hR, h]
  · intro rand autn hR hA hlen
    simp [receiveAuthenticationRequest5gAka, hp, hR, hA, hlen]
  · intro rand autn hR hA hlr hla h
    rcases h with h | h
    · simp [receiveAuthenticationRequest5gAka, hp, hR, hA, hlr, hla, h]
    · by_cases htsc : msg.ngKSI.tsc = ETypeOfSecurityContext.MAPPED_SECURITY_CONTEXT
      · simp [receiveAuthenticationRequest5gAka, hp, hR, hA, hlr, hla, htsc]
      · simp [receiveAuthenticationRequest5gAka, hp, hR, hA, hlr, hla, htsc, h]
  · intro rand autn hR hA hlr hla htsc hksi huse
    constructor
    · intro hr
      simp [receiveAuthenticationRequest5gAka, hp, hR, hA, hlr, hla, htsc, hksi, huse, hr]
    · intro hr
      simp [receiveAuthenticationRequest5gAka, hp, hR, hA, hlr, hla, htsc, hksi, huse, hr,
        networkFailingTheAuthCheck_false_events st true hr, sendFailure5gAka]

theorem fiveGAka_precondition_failures_witness :
    receiveAuthenticationRequest5gAka sampleEnv initState
      { ngKSI := { tsc := ETypeOfSecurityContext.NATIVE_SECURITY_CONTEXT, ksi := 1 },
        abba := ⟨[0, 0]⟩, authParamRAND := none, authParamAUTN := none, eapMessage := none } =
      sendFailure5gAka initState EMmCause.SEMANTICALLY_INCORRECT_MESSAGE none :=
  (fiveGAka_precondition_failures sampleEnv initState
    { ngKSI := { tsc := ETypeOfSecurityContext.NATIVE_SECURITY_CONTEXT, ksi := 1 },
      abba := ⟨[0, 0]⟩, authParamRAND := none, authParamAUTN := none, eapMessage := none }
    rfl).1 (Or.inl rfl)

/-- C8: AuthenticationReject clears RAND and RES*, dispatches into the
EAP-failure helper exactly when an EAP payload with code FAILURE is
present, sets the update status to 5U3 ROAMING NOT ALLOWED, clears the
stored GUTI, TAI list, last-visited TAI and both security contexts,
invalidates the USIM, stops T3510, T3516, T3517, T3519 and T3521, moves MM
to DEREGISTERED_PS and emits no NAS message. -/
theorem authReject_spec (st : UeState) (msg : AuthenticationReject) :
    (receiveAuthenticationReject st msg).1.rand = OctetString.empty ∧
    (receiveAuthenticationReject st msg).1.resStar = OctetString.empty ∧
    (receiveAuthenticationReject st msg).1.uState = E5UState.U3_ROAMING_NOT_ALLOWED ∧
    (receiveAuthenticationReject st msg).1.storedGuti = false ∧
    (receiveAuthenticationReject st msg).1.taiList = false ∧
    (receiveAuthenticationReject st msg).1.lastVisitedTai = false ∧
    (receiveAuthenticationReject st msg).1.currentNsCtx = none ∧
    (receiveAuthenticationReject st msg).1.nonCurrentNsCtx = none ∧
    (receiveAuthenticationReject st msg).1.usimValid = false ∧
    (receiveAuthenticationReject st msg).1.t3510 = false ∧
    (receiveAuthenticationReject st msg).1.t3516 = false ∧
    (receiveAuthenticationReject st msg).1.t3517 = false ∧
    (receiveAuthenticationReject st msg).1.t3519 = false ∧
    (receiveAuthenticationReject st msg).1.t3521 = false ∧
    (receiveAuthenticationReject st msg).1.mmSubState = EMmSubState.MM_DEREGISTERED_PS ∧
    (receiveAuthenticationReject st msg).2 =
      (if msg.eapMessage = some ECode.FAILURE then [Event.eapFailureCall] else []) ∧
    (∀ m : NasOut, Event.sentNas m ∉ (receiveAuthenticationReject st msg).2) := by
  rcases msg with ⟨e⟩
  rcases e with _ | c
  · simp [receiveAuthenticationReject, receiveEapFailureMessage]
  · cases c <;> simp [receiveAuthenticationReject, receiveEapFailureMessage]

theorem authReject_spec_witness :
    (receiveAuthenticationReject initState { eapMessage := some ECode.FAILURE }).1.usimValid
      = false ∧
    (receiveAuthenticationReject initState { eapMessage := some ECode.FAILURE }).1.mmSubState
      = EMmSubState.MM_DEREGISTERED_PS ∧
    (receiveAuthenticationReject initState { eapMessage := some ECode.FAILURE }).2 =
      (if (some ECode.FAILURE : Option ECode) = some ECode.FAILURE
        then [Event.eapFailureCall] else []) :=
  ⟨(authReject_spec initState { eapMessage := some ECode.FAILURE }).2.2.2.2.2.2.2.2.1,
   (authReject_spec initState { eapMessage := some ECode.FAILURE }).2.2.2.2.2.2.2.2.2.2.2.2.2.2.1,
   (authReject_spec initState { eapMessage := some ECode.FAILURE }).2.2.2.2.2.2.2.2.2.2.2.2.2.2.2.1⟩

/-- C9: in the EAP-AKA-prime handler an AT_KDF different from 1 first
invokes networkFailingTheAuthCheck(true), returning its state and trace
with no NAS emission when it trips, and otherwise restarts T3520 and sends
an AKA_AUTHENTICATION_REJECT packet inside an AuthenticationResponse;
an AT_KDF_INPUT different from the serving network name sends the same
reject directly, without the trip check. -/
theorem eap_kdf_checks (env : Env) (st : UeState) (ksi : Nat) (abba : OctetString)
    (p : EapAkaPrime)
    (hp : env.currentPlmnValid = true)
    (hsub : p.subType = ESubType.AKA_CHALLENGE)
    (hl1 : p.attrRand.length = 16) (hl2 : p.attrAutn.length = 16)
    (hl3 : p.attrMac.length = 16) :
    (p.attrKdf ≠ 1 →
      ((networkFailingTheAuthCheck st true).1 = true →
        receiveAuthenticationRequestEap env st (mkEapMsg ksi abba p) =
          ((networkFailingTheAuthCheck st true).2.1, (networkFailingTheAuthCheck st true).2.2) ∧
        (∀ m : NasOut,
          Event.sentNas m ∉ (receiveAuthenticationRequestEap env st (mkEapMsg ksi abba p)).2)) ∧
      ((networkFailingTheAuthCheck st true).1 = false →
        receiveAuthenticationRequestEap env st (mkEapMsg ksi abba p) =
          sendEapFailureResp { (networkFailingTheAuthCheck st true).2.1 with t3520 := true }
            (mkEapAkaPrime ECode.RESPONSE p.id ESubType.AKA_AUTHENTICATION_REJECT))) ∧
    (p.attrKdf = 1 → p.attrKdfInput ≠ env.snn →
      receiveAuthenticationRequestEap env st (mkEapMsg ksi abba p) =
        sendEapFailureResp st
          (mkEapAkaPrime ECode.RESPONSE p.id ESubType.AKA_AUTHENTICATION_REJECT)) := by
  constructor
  · intro hkdf
    constructor
    · intro hr
      constructor
      · simp [receiveAuthenticationRequestEap, hp, hsub, hl1, hl2, hl3, hkdf, hr, mkEapMsg]
      · intro m
        simp [receiveAuthenticationRequestEap, hp, hsub, hl1, hl2, hl3, hkdf, hr, mkEapMsg]
        exact networkFailingTheAuthCheck_no_nas st true m
    · intro hr
      simp [receiveAuthenticationRequestEap, hp, hsub, hl1, hl2, hl3, hkdf, hr, mkEapMsg,
        networkFailingTheAuthCheck_false_events st true hr]
  · intro hkdf hsnn
    simp [receiveAuthenticationRequestEap, hp, hsub, hl1, hl2, hl3, hkdf, hsnn, mkEapMsg]

/-- An EAP-AKA-prime challenge packet with a wrong AT_KDF value. -/
def pBadKdf : EapAkaPrime :=
  { mkEapAkaPrime ECode.REQUEST 5 ESubType.AKA_CHALLENGE with
    attrRand := sampleRand, attrAutn := sampleAutnOk,
    attrMac := ⟨List.replicate 16 9⟩, attrKdf := 2 }

theorem eap_kdf_checks_witness :
    receiveAuthenticationRequestEap sampleEnv initState (mkEapMsg 1 ⟨[0, 0]⟩ pBadKdf) =
      sendEapFailureResp
        { (networkFailingTheAuthCheck initState true).2.1 with t3520 := true }
        (mkEapAkaPrime ECode.RESPONSE pBadKdf.id ESubType.AKA_AUTHENTICATION_REJECT) :=
  ((eap_kdf_checks sampleEnv initState 1 ⟨[0, 0]⟩ pBadKdf rfl rfl (by decide) (by decide)
    (by decide)).1 (by decide)).2 (by decide)

/-- C10: receiveAuthenticationResult dereferences the non-current security
context whenever the message carries an ABBA IE: with the slot empty the
null-dereference branch is reached (the model returns none), and with a
staged context, or without an ABBA IE, the handler is well defined. -/
theorem authResult_abba_null_deref (st : UeState) (msg : AuthenticationResult) :
    ((∃ a, msg.abba = some a) → st.nonCurrentNsCtx = none →
      receiveAuthenticationResult st msg = none) ∧
    (st.nonCurrentNsCtx ≠ none → (receiveAuthenticationResult st msg).isSome = true) ∧
    (msg.abba = none → (receiveAuthenticationResult st msg).isSome = true) := by
  refine ⟨?_, ?_, ?_⟩
  · rintro ⟨a, ha⟩ hn
    simp [receiveAuthenticationResult, ha, hn]
  · intro hn
    rcases hc : st.nonCurrentNsCtx with _ | ctx
    · exact absurd hc hn
    · rcases ha : msg.abba with _ | a
      · simp only [receiveAuthenticationResult, ha, hc]
        split
        · simp [receiveEapSuccessMessage]
        · split <;> simp [receiveEapFailureMessage]
      · simp only [receiveAuthenticationResult, ha, hc]
        split
        · simp [receiveEapSuccessMessage]
        · split <;> simp [receiveEapFailureMessage]
  · intro ha
    simp only [receiveAuthenticationResult, ha]
    split
    · simp [receiveEapSuccessMessage]
    · split <;> simp [receiveEapFailureMessage]

theorem authResult_abba_null_deref_witness :
    receiveAuthenticationResult initState
      { abba := some ⟨[1, 2]⟩, eapCode := ECode.SUCCESS } = none :=
  (authResult_abba_null_deref initState
    { abba := some ⟨[1, 2]⟩, eapCode := ECode.SUCCESS }).1 ⟨⟨[1, 2]⟩, rfl⟩ rfl

end Ueransim
